import Mathlib

set_option maxRecDepth 8192

/-!
Verification development for the riff core: the diff-to-changed-lines
mapping engine (`parse_git_modified_lines` and its inner
`parse_modified_lines` in `riff/utils.py`), the violation parser
(`parse_ruff_output`), and the repository path resolution utility
(`validate_repo_path`).

External collaborators (GitPython repository lookup and diff execution,
the unidiff patch-set decoder, the logging sink, process exit) are
represented explicitly: effectful calls are recorded in an event trace,
and data obtained from external processes (the discovered git directory,
the parsed patch set) is supplied through an environment record.  Python
exceptions become `Except` results.
-/

/-- ASCII whitespace characters, as stripped by Python str.strip on
ASCII input: space, tab, newline, carriage return, vertical tab and form
feed. -/
def isPyWs (c : Char) : Bool :=
  c = ' ' || c = '\t' || c = '\n' || c = '\r' || c = '\x0b' || c = '\x0c'

/-- Model of Python str.strip: drop leading and trailing ASCII
whitespace. -/
def pyStrip (s : String) : String :=
  String.mk (((s.data.dropWhile isPyWs).reverse.dropWhile isPyWs).reverse)

/-- Tag of one line entry of a unidiff hunk: added, removed or
context. -/
inductive LineTag where
  | added
  | removed
  | context
deriving DecidableEq, Repr

/-- One line entry of a unidiff hunk, as exposed by the unidiff
library: its tag, its text content, and its target-side line number
(absent for removed lines). -/
structure DiffLine where
  tag : LineTag
  value : String
  target_line_no : Option Nat
deriving DecidableEq, Repr

/-- Model of unidiff line.is_added. -/
def DiffLine.is_added (l : DiffLine) : Bool :=
  l.tag = LineTag.added

/-- One hunk of a per-file patch: a sequence of tagged line entries. -/
structure Hunk where
  lines : List DiffLine
deriving DecidableEq, Repr

/-- One per-file patch of a parsed diff: the declared file path
(relative to the repository root, as path components) and its hunks. -/
structure PatchedFile where
  path : List String
  hunks : List Hunk
deriving DecidableEq, Repr

/-- Embedding of the inner function `parse_modified_lines` of
`riff/utils.py`: the set of target-side line numbers of line entries,
across all hunks of the patched file, that are added, whose content
stripped of whitespace is non-empty, and whose target line number is not
None. -/
def parse_modified_lines (patched_file : PatchedFile) : Finset Nat :=
  (((patched_file.hunks.map Hunk.lines).flatten).filterMap fun line =>
    if line.is_added && !(pyStrip line.value == "") then line.target_line_no
    else none).toFinset

/-- The four diff modes of `riff/utils.py` DiffMode. -/
inductive DiffMode where
  | BRANCH
  | UNSTAGED
  | STAGED
  | REF
deriving DecidableEq, Repr

/-- Failures surfaced by the embedded functions: Python ValueError with
its message, json.JSONDecodeError, a failure of the per-record violation
decoding, and typer.Exit carrying an exit code together with the flag
telling whether the raising context was suppressed (raise ... from
None). -/
inductive RiffErr where
  | valueErr (msg : String)
  | jsonDecodeErr
  | badViolationRecord
  | exitErr (code : Nat) (contextSuppressed : Bool)
deriving DecidableEq, Repr

/-- Observable effects of the embedded functions, in order of
occurrence: the git repository lookup (Repo with
search_parent_directories), the git diff invocation with its positional
arguments and the two ignore options, and log records at each
severity. -/
inductive Event where
  | repoLookup (gitDir : List String)
  | diffCall (args : List String) (ignore_blank_lines : Bool) (ignore_space_at_eol : Bool)
  | logDebug (msg : String)
  | logWarning (msg : String)
  | logError (msg : String)
deriving DecidableEq, Repr

/-- Tells whether an event is a git diff invocation. -/
def Event.isDiffCall : Event → Bool
  | Event.diffCall _ _ _ => true
  | _ => false

/-- Environment supplying the data obtained from the external git and
unidiff collaborators during one call of `parse_git_modified_lines`: the
git directory found by the repository lookup (as path components) and
the per-file patches produced by PatchSet on the diff output. -/
structure GitEnv where
  gitDir : List String
  patchSet : List PatchedFile

/-- Embedding of the mode dispatch of `parse_git_modified_lines`:
the positional git diff arguments for each mode, or the ValueError
raised when the parameter required by the mode is absent or empty
(Python falsy). -/
def computeDiffArgs (mode : DiffMode) (base_branch diff_ref : Option String) :
    Except RiffErr (List String) :=
  match mode with
  | DiffMode.BRANCH =>
    match base_branch with
    | none => Except.error (RiffErr.valueErr "base_branch is required for BRANCH mode")
    | some b =>
      if b = "" then Except.error (RiffErr.valueErr "base_branch is required for BRANCH mode")
      else Except.ok [b]
  | DiffMode.UNSTAGED => Except.ok []
  | DiffMode.STAGED => Except.ok ["--cached"]
  | DiffMode.REF =>
    match diff_ref with
    | none => Except.error (RiffErr.valueErr "diff_ref is required for REF mode")
    | some r =>
      if r = "" then Except.error (RiffErr.valueErr "diff_ref is required for REF mode")
      else Except.ok [r]

/-- Embedding of `parse_git_modified_lines` of `riff/utils.py`.  In
source order: the repository lookup runs first, then the mode dispatch
builds the diff arguments (raising ValueError on a missing required
parameter), then the diff is invoked with the two ignore options, the
parsed patch set is folded into the map from absolute file path
(repository root joined with the declared path) to the changed-line set,
and finally the result is logged (debug when non-empty, warning when
empty).  Returns the event trace together with the result. -/
def parse_git_modified_lines (env : GitEnv) (mode : DiffMode)
    (base_branch : Option String) (diff_ref : Option String) :
    List Event × Except RiffErr (List (List String × Finset Nat)) :=
  let lookupTrace := [Event.repoLookup env.gitDir]
  let repo_root := env.gitDir.dropLast
  match computeDiffArgs mode base_branch diff_ref with
  | Except.error e => (lookupTrace, Except.error e)
  | Except.ok diff_args =>
    let callTrace := lookupTrace ++ [Event.diffCall diff_args true true]
    let result := env.patchSet.map fun patched_file =>
      (repo_root ++ patched_file.path, parse_modified_lines patched_file)
    if result.isEmpty then
      (callTrace ++ [Event.logWarning "could not find any git-modified lines"],
       Except.ok result)
    else
      (callTrace ++ [Event.logDebug "modified lines"], Except.ok result)

/-- Environment supplying the data obtained from the filesystem during
one call of `validate_repo_path`: the git directory found by the
repository lookup when one exists, the current working directory, and
the filesystem path resolution applied by Path.resolve. -/
structure WorldEnv where
  repoSearch : Option (List String)
  cwd : String
  resolve : List String → List String

/-- Embedding of `validate_repo_path` of `riff/utils.py`: when the
repository lookup succeeds, return the resolved parent directory of the
git directory; when it raises InvalidGitRepositoryError, log an error
naming the current working directory and raise typer.Exit(1) from None
(context suppressed, no stack trace). -/
def validate_repo_path (env : WorldEnv) :
    List Event × Except RiffErr (List String) :=
  match env.repoSearch with
  | some gd => ([], Except.ok (env.resolve gd.dropLast))
  | none =>
    ([Event.logError ("Cannot detect repository in " ++ env.cwd)],
     Except.error (RiffErr.exitErr 1 true))

/-- JSON values, as produced by the external JSON decoder for the lint
report interface: null, booleans, integer numbers, strings, arrays and
objects.  The lint report format only uses integer numbers, so the
numeric fragment is restricted to integers. -/
inductive Json where
  | null
  | bool (b : Bool)
  | num (n : Int)
  | str (s : String)
  | arr (xs : List Json)
  | obj (kvs : List (String × Json))

/-- JSON insignificant whitespace: space, tab, newline, carriage
return. -/
def isJsonWs (c : Char) : Bool :=
  c = ' ' || c = '\t' || c = '\n' || c = '\r'

/-- Skips leading JSON whitespace. -/
def skipWs : List Char → List Char
  | [] => []
  | c :: cs => if isJsonWs c then skipWs cs else c :: cs

/-- Consumes an expected literal character sequence. -/
def expectChars : List Char → List Char → Option (List Char)
  | [], cs => some cs
  | e :: es, c :: cs => if c = e then expectChars es cs else none
  | _ :: _, [] => none

/-- Table of the JSON escape characters and their decoded values. -/
def escTable : List (Char × Char) :=
  [('n', '\n'), ('t', '\t'), ('r', '\r'), ('"', '"'),
   ('\\', '\\'), ('/', '/'), ('b', '\x08'), ('f', '\x0c')]

/-- Decodes one JSON escape character through the table. -/
def escChar (e : Char) : Option Char :=
  escTable.lookup e

/-- Decodes the body of a JSON string after the opening quote, up to
and including the closing quote. -/
def parseStringBody : List Char → Option (String × List Char)
  | [] => none
  | '"' :: rest => some ("", rest)
  | '\\' :: e :: rest => do
    let c ← escChar e
    let (s, r) ← parseStringBody rest
    pure (String.mk (c :: s.data), r)
  | c :: rest => do
    let (s, r) ← parseStringBody rest
    pure (String.mk (c :: s.data), r)

/-- Splits a leading run of decimal digits. -/
def takeDigits : List Char → List Char × List Char
  | [] => ([], [])
  | c :: cs =>
    if c.isDigit then
      let (ds, r) := takeDigits cs
      (c :: ds, r)
    else ([], c :: cs)

/-- Numeric value of a digit run. -/
def digitsToNat (ds : List Char) : Nat :=
  ds.foldl (fun a c => a * 10 + (c.toNat - 48)) 0

/-- Decodes a JSON integer number. -/
def parseNumber (cs : List Char) : Option (Json × List Char) :=
  match cs with
  | '-' :: rest =>
    match takeDigits rest with
    | ([], _) => none
    | (ds, r) => some (Json.num (-(digitsToNat ds : Int)), r)
  | _ =>
    match takeDigits cs with
    | ([], _) => none
    | (ds, r) => some (Json.num (digitsToNat ds), r)

mutual

/-- Decodes one JSON value: skips whitespace and dispatches on the
first significant character.  Fuel bounds the recursion depth. -/
def parseValue : Nat → List Char → Option (Json × List Char)
  | 0, _ => none
  | fuel + 1, cs =>
    match skipWs cs with
    | [] => none
    | c :: rest =>
      if c = 'n' then (expectChars ['u', 'l', 'l'] rest).map fun r => (Json.null, r)
      else if c = 't' then (expectChars ['r', 'u', 'e'] rest).map fun r => (Json.bool true, r)
      else if c = 'f' then (expectChars ['a', 'l', 's', 'e'] rest).map fun r => (Json.bool false, r)
      else if c = '"' then (parseStringBody rest).map fun p => (Json.str p.1, p.2)
      else if c = '[' then
        match parseArrayRest fuel rest with
        | some (xs, r) => some (Json.arr xs, r)
        | none => none
      else if c = '{' then
        match parseObjRest fuel rest with
        | some (kvs, r) => some (Json.obj kvs, r)
        | none => none
      else if c = '-' || c.isDigit then parseNumber (c :: rest)
      else none
termination_by structural fuel => fuel

/-- Decodes the items of a JSON array after the opening bracket. -/
def parseArrayRest : Nat → List Char → Option (List Json × List Char)
  | 0, _ => none
  | fuel + 1, cs =>
    match skipWs cs with
    | [] => none
    | c :: rest =>
      if c = ']' then some ([], rest)
      else
        match parseValue fuel cs with
        | none => none
        | some (v, after) =>
          match parseArrayTail fuel after with
          | none => none
          | some (vs, r) => some (v :: vs, r)
termination_by structural fuel => fuel

/-- Decodes the continuation of a JSON array after one item: a comma
followed by more items, or the closing bracket. -/
def parseArrayTail : Nat → List Char → Option (List Json × List Char)
  | 0, _ => none
  | fuel + 1, cs =>
    match skipWs cs with
    | [] => none
    | c :: rest =>
      if c = ']' then some ([], rest)
      else if c = ',' then
        match parseValue fuel rest with
        | none => none
        | some (v, after) =>
          match parseArrayTail fuel after with
          | none => none
          | some (vs, r) => some (v :: vs, r)
      else none
termination_by structural fuel => fuel

/-- Decodes the members of a JSON object after the opening brace. -/
def parseObjRest : Nat → List Char → Option (List (String × Json) × List Char)
  | 0, _ => none
  | fuel + 1, cs =>
    match skipWs cs with
    | [] => none
    | c :: rest =>
      if c = '}' then some ([], rest)
      else
        match parseMember fuel cs with
        | none => none
        | some (kv, after) =>
          match parseObjTail fuel after with
          | none => none
          | some (kvs, r) => some (kv :: kvs, r)
termination_by structural fuel => fuel

/-- Decodes the continuation of a JSON object after one member: a comma
followed by more members, or the closing brace. -/
def parseObjTail : Nat → List Char → Option (List (String × Json) × List Char)
  | 0, _ => none
  | fuel + 1, cs =>
    match skipWs cs with
    | [] => none
    | c :: rest =>
      if c = '}' then some ([], rest)
      else if c = ',' then
        match parseMember fuel rest with
        | none => none
        | some (kv, after) =>
          match parseObjTail fuel after with
          | none => none
          | some (kvs, r) => some (kv :: kvs, r)
      else none
termination_by structural fuel => fuel

/-- Decodes one JSON object member: a quoted key, a colon, a value. -/
def parseMember : Nat → List Char → Option ((String × Json) × List Char)
  | 0, _ => none
  | fuel + 1, cs =>
    match skipWs cs with
    | [] => none
    | c :: rest =>
      if c = '"' then
        match parseStringBody rest with
        | none => none
        | some (k, afterKey) =>
          match skipWs afterKey with
          | [] => none
          | c2 :: rest2 =>
            if c2 = ':' then
              match parseValue fuel rest2 with
              | none => none
              | some (v, r) => some ((k, v), r)
            else none
      else none
termination_by structural fuel => fuel

end

/-- Model of the external JSON decoder (json.loads) on the lint report
interface: decode one JSON document and require that only whitespace
follows it; any failure (no value, trailing data) is the decode
error. -/
def jsonLoads (s : String) : Option Json :=
  match parseValue (2 * s.length + 4) s.data with
  | some (v, rest) => if skipWs rest = [] then some v else none
  | none => none

example : jsonLoads "[1, 2, -3]" = some (Json.arr [Json.num 1, Json.num 2, Json.num (-3)]) := rfl

example : jsonLoads "  " = none := rfl

example : jsonLoads "\x7b\"a\": [true, null, \"x\"]\x7d"
    = some (Json.obj [("a", Json.arr [Json.bool true, Json.null, Json.str "x"])]) := rfl

example : jsonLoads "[\x7b\"code\":\"E0001\",\"filename\":\"file.py\",\"location\":\x7b\"row\":1,\"column\":2\x7d,\"end_location\":\x7b\"row\":3,\"column\":4\x7d,\"message\":\"Error message\",\"fix\":\x7b\"message\":\"Fix suggestion\"\x7d\x7d]"
    = some (Json.arr [Json.obj
        [("code", Json.str "E0001"),
         ("filename", Json.str "file.py"),
         ("location", Json.obj [("row", Json.num 1), ("column", Json.num 2)]),
         ("end_location", Json.obj [("row", Json.num 3), ("column", Json.num 4)]),
         ("message", Json.str "Error message"),
         ("fix", Json.obj [("message", Json.str "Fix suggestion")])]]) := rfl

/-- Looks up a key in a JSON object; none on other JSON values. -/
def Json.getField (j : Json) (k : String) : Option Json :=
  match j with
  | Json.obj kvs => kvs.lookup k
  | _ => none

/-- String content of a JSON string value. -/
def Json.asString : Json → Option String
  | Json.str s => some s
  | _ => none

/-- Natural number content of a non-negative JSON number. -/
def Json.asNat : Json → Option Nat
  | Json.num n => if n < 0 then none else some n.toNat
  | _ => none

/-- The violation record of riff: one lint finding, with the fields
used by its constructor in the tests of `riff/utils.py`. -/
structure Violation where
  error_code : String
  path : String
  line_start : Nat
  line_end : Nat
  column_start : Nat
  column_end : Nat
  message : String
  linter_name : String
  is_autofixable : Bool
  fix_suggestion : Option String
deriving DecidableEq, Repr

/-- Modelled from the spec: `Violation.parse` lives in
`riff/violation.py`, which is not among the provided source files (only
its callers in `riff/utils.py` and the expected construction in the
tests are).  Following section 4.1 of the specification, each decoded
JSON object is mapped field-for-field into a Violation: code, filename,
nested location row/column, nested end_location row/column, message,
the linter identity fixed to the display name Ruff, an autofixability
flag derived from the presence of a nested fix object, and a
fix-suggestion string extracted from that fix object's message field if
present, absent otherwise. -/
def Violation.parse (j : Json) : Option Violation := do
  let code ← (j.getField "code").bind Json.asString
  let filename ← (j.getField "filename").bind Json.asString
  let loc ← j.getField "location"
  let row ← (loc.getField "row").bind Json.asNat
  let col ← (loc.getField "column").bind Json.asNat
  let endLoc ← j.getField "end_location"
  let endRow ← (endLoc.getField "row").bind Json.asNat
  let endCol ← (endLoc.getField "column").bind Json.asNat
  let message ← (j.getField "message").bind Json.asString
  let fix := j.getField "fix"
  pure
    { error_code := code
      path := filename
      line_start := row
      line_end := endRow
      column_start := col
      column_end := endCol
      message := message
      linter_name := "Ruff"
      is_autofixable := fix.isSome
      fix_suggestion := fix.bind fun f => (f.getField "message").bind Json.asString }

/-- Decodes every element of the raw violation array, in order; fails
when any element fails (the exception inside Python map/tuple
propagates). -/
def parseViolationList : List Json → Option (List Violation)
  | [] => some []
  | j :: js =>
    match Violation.parse j, parseViolationList js with
    | some v, some vs => some (v :: vs)
    | _, _ => none

/-- Embedding of `parse_ruff_output` of `riff/utils.py`: log the raw
output, return the empty tuple on empty (Python falsy) input, otherwise
decode the JSON (logging and re-raising the decode error on failure)
and map Violation.parse over the decoded array. -/
def parse_ruff_output (ruff_stdout : String) :
    List Event × Except RiffErr (List Violation) :=
  let debugTrace := [Event.logDebug "ruff_stdout"]
  if ruff_stdout = "" then
    (debugTrace ++ [Event.logDebug "No ruff output, assuming no violations"],
     Except.ok [])
  else
    match jsonLoads ruff_stdout with
    | none =>
      (debugTrace ++ [Event.logError "Could not parse Ruff output as JSON"],
       Except.error RiffErr.jsonDecodeErr)
    | some (Json.arr raw_violations) =>
      match parseViolationList raw_violations with
      | some violations =>
        (debugTrace ++ [Event.logDebug "parsed ruff violations"],
         Except.ok violations)
      | none => (debugTrace, Except.error RiffErr.badViolationRecord)
    | some _ => (debugTrace, Except.error RiffErr.badViolationRecord)

/-- The lint report of the concrete test scenario: one object with all
fields populated, including a fix suggestion. -/
def ruffOutputA : String :=
  "[\x7b\"code\":\"E0001\",\"filename\":\"file.py\",\"location\":\x7b\"row\":1,\"column\":2\x7d,\"end_location\":\x7b\"row\":3,\"column\":4\x7d,\"message\":\"Error message\",\"fix\":\x7b\"message\":\"Fix suggestion\"\x7d\x7d]"

/-- The same lint report with the fix field absent. -/
def ruffOutputB : String :=
  "[\x7b\"code\":\"E0001\",\"filename\":\"file.py\",\"location\":\x7b\"row\":1,\"column\":2\x7d,\"end_location\":\x7b\"row\":3,\"column\":4\x7d,\"message\":\"Error message\"\x7d]"

/-- The decoded object of `ruffOutputA`. -/
def jsonObjA : Json :=
  Json.obj
    [("code", Json.str "E0001"),
     ("filename", Json.str "file.py"),
     ("location", Json.obj [("row", Json.num 1), ("column", Json.num 2)]),
     ("end_location", Json.obj [("row", Json.num 3), ("column", Json.num 4)]),
     ("message", Json.str "Error message"),
     ("fix", Json.obj [("message", Json.str "Fix suggestion")])]

/-- The decoded object of `ruffOutputB`. -/
def jsonObjB : Json :=
  Json.obj
    [("code", Json.str "E0001"),
     ("filename", Json.str "file.py"),
     ("location", Json.obj [("row", Json.num 1), ("column", Json.num 2)]),
     ("end_location", Json.obj [("row", Json.num 3), ("column", Json.num 4)]),
     ("message", Json.str "Error message")]

/-- The expected violation of the concrete test scenario. -/
def violationA : Violation :=
  { error_code := "E0001"
    path := "file.py"
    line_start := 1
    line_end := 3
    column_start := 2
    column_end := 4
    message := "Error message"
    linter_name := "Ruff"
    is_autofixable := true
    fix_suggestion := some "Fix suggestion" }

/-- The expected violation when the fix field is absent. -/
def violationB : Violation :=
  { error_code := "E0001"
    path := "file.py"
    line_start := 1
    line_end := 3
    column_start := 2
    column_end := 4
    message := "Error message"
    linter_name := "Ruff"
    is_autofixable := false
    fix_suggestion := none }

/-- A two-object lint report, input order A then B. -/
def ruffOutputC : String :=
  "[\x7b\"code\":\"E0001\",\"filename\":\"file.py\",\"location\":\x7b\"row\":1,\"column\":2\x7d,\"end_location\":\x7b\"row\":3,\"column\":4\x7d,\"message\":\"Error message\",\"fix\":\x7b\"message\":\"Fix suggestion\"\x7d\x7d,\x7b\"code\":\"E0001\",\"filename\":\"file.py\",\"location\":\x7b\"row\":1,\"column\":2\x7d,\"end_location\":\x7b\"row\":3,\"column\":4\x7d,\"message\":\"Error message\"\x7d]"

example : jsonLoads ruffOutputA = some (Json.arr [jsonObjA]) := rfl

example : jsonLoads ruffOutputC = some (Json.arr [jsonObjA, jsonObjB]) := rfl

example : Violation.parse jsonObjA = some violationA := rfl

example : (parse_ruff_output ruffOutputA).2 = Except.ok [violationA] := rfl

/-- Length invariant of the per-record violation decoding. -/
theorem parseViolationList_length :
    ∀ (xs : List Json) (vs : List Violation),
      parseViolationList xs = some vs → vs.length = xs.length := by
  intro xs
  induction xs with
  | nil =>
    intro vs h
    simp [parseViolationList] at h
    simp [← h]
  | cons j js ih =>
    intro vs h
    simp only [parseViolationList] at h
    cases hj : Violation.parse j with
    | none => rw [hj] at h; exact absurd h (by simp)
    | some v =>
      cases hjs : parseViolationList js with
      | none => rw [hj, hjs] at h; exact absurd h (by simp)
      | some ws =>
        rw [hj, hjs] at h
        simp at h
        subst h
        simp [ih ws hjs]

/-- C1: for every parsed per-file patch, `parse_modified_lines`
computes its changed-line set as exactly the set of target-side line
numbers of line entries that are tagged added, whose content stripped
of surrounding whitespace is non-empty, and that carry a defined target
line number; consequently an added whitespace-only line never
contributes, an added non-blank line always contributes its target-side
line number, and removed or context lines never contribute. -/
theorem parse_modified_lines_mem_iff (patched_file : PatchedFile) (n : Nat) :
    n ∈ parse_modified_lines patched_file ↔
      ∃ hk ∈ patched_file.hunks, ∃ line ∈ hk.lines,
        line.tag = LineTag.added ∧ pyStrip line.value ≠ "" ∧
        line.target_line_no = some n := by
  unfold parse_modified_lines
  rw [List.mem_toFinset, List.mem_filterMap]
  constructor
  · rintro ⟨line, hmem, hline⟩
    rw [List.mem_flatten] at hmem
    rcases hmem with ⟨ls, hls, hlinemem⟩
    rw [List.mem_map] at hls
    rcases hls with ⟨hk, hhk, rfl⟩
    by_cases hcond : line.is_added && !(pyStrip line.value == "")
    · rw [if_pos hcond] at hline
      simp only [Bool.and_eq_true, Bool.not_eq_true', beq_eq_false_iff_ne,
        DiffLine.is_added, decide_eq_true_eq] at hcond
      exact ⟨hk, hhk, line, hlinemem, hcond.1, hcond.2, hline⟩
    · rw [if_neg hcond] at hline
      exact absurd hline (by simp)
  · rintro ⟨hk, hhk, line, hline, htag, hval, hno⟩
    refine ⟨line, ?_, ?_⟩
    · rw [List.mem_flatten]
      exact ⟨hk.lines, List.mem_map.mpr ⟨hk, hhk, rfl⟩, hline⟩
    · rw [if_pos ?_]
      · exact hno
      · simp only [Bool.and_eq_true, Bool.not_eq_true', beq_eq_false_iff_ne,
          DiffLine.is_added, decide_eq_true_eq]
        exact ⟨htag, hval⟩

/-- Keeps only the git diff invocations of a trace. -/
def diffCallsOf (t : List Event) : List Event :=
  t.filter Event.isDiffCall

/-- A sample environment: a discovered repository and an empty parsed
patch set. -/
def envA : GitEnv :=
  { gitDir := ["", "repo", ".git"], patchSet := [] }

/-- The trace of a successful mode dispatch holds exactly one diff
invocation, carrying the computed positional arguments and both ignore
options. -/
theorem diffCallsOf_trace (env : GitEnv) (mode : DiffMode)
    (bb dr : Option String) (args : List String)
    (h : computeDiffArgs mode bb dr = Except.ok args) :
    diffCallsOf (parse_git_modified_lines env mode bb dr).1
      = [Event.diffCall args true true] := by
  unfold parse_git_modified_lines
  rw [h]
  simp only []
  split <;> simp [diffCallsOf, Event.isDiffCall, List.filter_append]

/-- C2: in every mode the git diff is invoked with exactly the
prescribed arguments: BRANCH passes only the base_branch value, STAGED
passes only the cached flag, UNSTAGED passes nothing, REF passes only
the diff_ref value, and all four modes set both the blank-line-ignore
and the trailing-whitespace-ignore options. -/
theorem parse_git_modified_lines_diff_args (env : GitEnv) (b r : String)
    (hb : b ≠ "") (hr : r ≠ "") :
    diffCallsOf (parse_git_modified_lines env DiffMode.BRANCH (some b) none).1
        = [Event.diffCall [b] true true]
  ∧ diffCallsOf (parse_git_modified_lines env DiffMode.STAGED none none).1
        = [Event.diffCall ["--cached"] true true]
  ∧ diffCallsOf (parse_git_modified_lines env DiffMode.UNSTAGED none none).1
        = [Event.diffCall [] true true]
  ∧ diffCallsOf (parse_git_modified_lines env DiffMode.REF none (some r)).1
        = [Event.diffCall [r] true true] := by
  refine ⟨?_, ?_, ?_, ?_⟩ <;>
    apply diffCallsOf_trace <;>
    simp [computeDiffArgs, hb, hr]

/-- Witness for C2 at a concrete environment, branch and reference. -/
theorem parse_git_modified_lines_diff_args_witness :
    ("main" : String) ≠ "" ∧ ("HEAD~1" : String) ≠ ""
  ∧ (diffCallsOf (parse_git_modified_lines envA DiffMode.BRANCH (some "main") none).1
        = [Event.diffCall ["main"] true true]
    ∧ diffCallsOf (parse_git_modified_lines envA DiffMode.STAGED none none).1
        = [Event.diffCall ["--cached"] true true]
    ∧ diffCallsOf (parse_git_modified_lines envA DiffMode.UNSTAGED none none).1
        = [Event.diffCall [] true true]
    ∧ diffCallsOf (parse_git_modified_lines envA DiffMode.REF none (some "HEAD~1")).1
        = [Event.diffCall ["HEAD~1"] true true]) :=
  ⟨by decide, by decide,
   parse_git_modified_lines_diff_args envA "main" "HEAD~1" (by decide) (by decide)⟩

/-- C3: BRANCH mode with an absent or empty base_branch fails with
ValueError carrying exactly the message
"base_branch is required for BRANCH mode", REF mode with an absent or
empty diff_ref fails with exactly
"diff_ref is required for REF mode", and the UNSTAGED and STAGED modes
succeed without requiring any extra parameter. -/
theorem parse_git_modified_lines_mode_param_errors (env : GitEnv)
    (bb dr : Option String)
    (hb : bb = none ∨ bb = some "") (hr : dr = none ∨ dr = some "") :
    (parse_git_modified_lines env DiffMode.BRANCH bb dr).2
        = Except.error (RiffErr.valueErr "base_branch is required for BRANCH mode")
  ∧ (parse_git_modified_lines env DiffMode.REF bb dr).2
        = Except.error (RiffErr.valueErr "diff_ref is required for REF mode")
  ∧ (∀ bb2 dr2 : Option String, ∃ m,
        (parse_git_modified_lines env DiffMode.UNSTAGED bb2 dr2).2 = Except.ok m)
  ∧ (∀ bb2 dr2 : Option String, ∃ m,
        (parse_git_modified_lines env DiffMode.STAGED bb2 dr2).2 = Except.ok m) := by
  refine ⟨?_, ?_, ?_, ?_⟩
  · rcases hb with rfl | rfl <;> simp [parse_git_modified_lines, computeDiffArgs]
  · rcases hr with rfl | rfl <;> simp [parse_git_modified_lines, computeDiffArgs]
  · intro bb2 dr2
    simp only [parse_git_modified_lines, computeDiffArgs]
    split <;> exact ⟨_, rfl⟩
  · intro bb2 dr2
    simp only [parse_git_modified_lines, computeDiffArgs]
    split <;> exact ⟨_, rfl⟩

/-- Witness for C3 at a concrete environment with both parameters
absent. -/
theorem parse_git_modified_lines_mode_param_errors_witness :
    ((none : Option String) = none ∨ (none : Option String) = some "")
  ∧ ((parse_git_modified_lines envA DiffMode.BRANCH none none).2
        = Except.error (RiffErr.valueErr "base_branch is required for BRANCH mode")
    ∧ (parse_git_modified_lines envA DiffMode.REF none none).2
        = Except.error (RiffErr.valueErr "diff_ref is required for REF mode")
    ∧ (∀ bb2 dr2 : Option String, ∃ m,
          (parse_git_modified_lines envA DiffMode.UNSTAGED bb2 dr2).2 = Except.ok m)
    ∧ (∀ bb2 dr2 : Option String, ∃ m,
          (parse_git_modified_lines envA DiffMode.STAGED bb2 dr2).2 = Except.ok m)) :=
  ⟨Or.inl rfl,
   parse_git_modified_lines_mode_param_errors envA none none (Or.inl rfl) (Or.inl rfl)⟩

/-- C4 counterexample: the claim says a missing mode parameter is
detected before any I/O, in particular before the repository lookup.
At the concrete input BRANCH mode with no base_branch, the call fails
with the ValueError, yet its trace already holds the repository lookup
event: the Repo construction in the source runs before the mode
dispatch, so the lookup happens before the failure. -/
theorem parse_git_modified_lines_lookup_before_validation :
    (parse_git_modified_lines envA DiffMode.BRANCH none none).2
        = Except.error (RiffErr.valueErr "base_branch is required for BRANCH mode")
  ∧ (parse_git_modified_lines envA DiffMode.BRANCH none none).1
        = [Event.repoLookup ["", "repo", ".git"]] :=
  ⟨rfl, rfl⟩

/-- C4 amended: when a required mode parameter is missing (BRANCH
without base_branch, REF without diff_ref), the ValueError is raised
synchronously after the repository lookup but before the diff process
is invoked: the trace of the failing call is exactly the repository
lookup, and holds no diff invocation. -/
theorem parse_git_modified_lines_fails_before_diff (env : GitEnv)
    (bb dr : Option String)
    (hb : bb = none ∨ bb = some "") (hr : dr = none ∨ dr = some "") :
    ((parse_git_modified_lines env DiffMode.BRANCH bb dr).1
        = [Event.repoLookup env.gitDir]
      ∧ (parse_git_modified_lines env DiffMode.BRANCH bb dr).2
        = Except.error (RiffErr.valueErr "base_branch is required for BRANCH mode")
      ∧ diffCallsOf (parse_git_modified_lines env DiffMode.BRANCH bb dr).1 = [])
  ∧ ((parse_git_modified_lines env DiffMode.REF bb dr).1
        = [Event.repoLookup env.gitDir]
      ∧ (parse_git_modified_lines env DiffMode.REF bb dr).2
        = Except.error (RiffErr.valueErr "diff_ref is required for REF mode")
      ∧ diffCallsOf (parse_git_modified_lines env DiffMode.REF bb dr).1 = []) := by
  constructor
  · rcases hb with rfl | rfl <;>
      simp [parse_git_modified_lines, computeDiffArgs, diffCallsOf, Event.isDiffCall]
  · rcases hr with rfl | rfl <;>
      simp [parse_git_modified_lines, computeDiffArgs, diffCallsOf, Event.isDiffCall]

/-- Witness for the amended C4 at a concrete environment with both
parameters absent. -/
theorem parse_git_modified_lines_fails_before_diff_witness :
    ((none : Option String) = none ∨ (none : Option String) = some "")
  ∧ (((parse_git_modified_lines envA DiffMode.BRANCH none none).1
        = [Event.repoLookup envA.gitDir]
      ∧ (parse_git_modified_lines envA DiffMode.BRANCH none none).2
        = Except.error (RiffErr.valueErr "base_branch is required for BRANCH mode")
      ∧ diffCallsOf (parse_git_modified_lines envA DiffMode.BRANCH none none).1 = [])
    ∧ ((parse_git_modified_lines envA DiffMode.REF none none).1
        = [Event.repoLookup envA.gitDir]
      ∧ (parse_git_modified_lines envA DiffMode.REF none none).2
        = Except.error (RiffErr.valueErr "diff_ref is required for REF mode")
      ∧ diffCallsOf (parse_git_modified_lines envA DiffMode.REF none none).1 = [])) :=
  ⟨Or.inl rfl,
   parse_git_modified_lines_fails_before_diff envA none none (Or.inl rfl) (Or.inl rfl)⟩

/-- C5: on every successful mode dispatch, the keys of the returned map
are exactly the absolute paths (repository root joined with the
declared path) of the per-file patches of the parsed diff — the spec
models every per-file patch as carrying at least one hunk, which the
hypothesis records — every patched file is a key mapped to its
changed-line set (possibly empty), and an empty diff yields an empty
map rather than an error. -/
theorem parse_git_modified_lines_result_map_keys (env : GitEnv) (mode : DiffMode)
    (bb dr : Option String) (args : List String)
    (hargs : computeDiffArgs mode bb dr = Except.ok args)
    (_hhunks : ∀ pf ∈ env.patchSet, pf.hunks ≠ []) :
    ∃ m, (parse_git_modified_lines env mode bb dr).2 = Except.ok m
      ∧ m.map Prod.fst = env.patchSet.map (fun pf => env.gitDir.dropLast ++ pf.path)
      ∧ (∀ pf ∈ env.patchSet,
           (env.gitDir.dropLast ++ pf.path, parse_modified_lines pf) ∈ m)
      ∧ (env.patchSet = [] → m = []) := by
  unfold parse_git_modified_lines
  rw [hargs]
  simp only []
  split <;>
  · refine ⟨_, rfl, ?_, ?_, ?_⟩
    · simp [List.map_map]
    · intro pf hpf
      exact List.mem_map.mpr ⟨pf, hpf, rfl⟩
    · intro h
      simp [h]

/-- A per-file patch with one hunk whose only line entry is a removal:
zero qualifying added lines. -/
def pfB : PatchedFile :=
  { path := ["a.py"]
    hunks := [{ lines := [{ tag := LineTag.removed, value := "x", target_line_no := none }] }] }

/-- A sample environment whose parsed diff reports one hunk for one
file, with zero qualifying added lines. -/
def envB : GitEnv :=
  { gitDir := ["", "repo", ".git"], patchSet := [pfB] }

/-- Witness for C5 at a concrete environment: the file with only a
removed line is still a key, mapped to the empty set. -/
theorem parse_git_modified_lines_result_map_keys_witness :
    computeDiffArgs DiffMode.UNSTAGED none none = Except.ok []
  ∧ (∀ pf ∈ envB.patchSet, pf.hunks ≠ [])
  ∧ (∃ m, (parse_git_modified_lines envB DiffMode.UNSTAGED none none).2 = Except.ok m
      ∧ m.map Prod.fst = envB.patchSet.map (fun pf => envB.gitDir.dropLast ++ pf.path)
      ∧ (∀ pf ∈ envB.patchSet,
           (envB.gitDir.dropLast ++ pf.path, parse_modified_lines pf) ∈ m)
      ∧ (envB.patchSet = [] → m = [])) :=
  ⟨rfl, by decide,
   parse_git_modified_lines_result_map_keys envB DiffMode.UNSTAGED none none [] rfl (by decide)⟩

/-- C6: the one-object lint report with all fields populated parses to
exactly one Violation whose fields equal the input verbatim with
is_autofixable true and the fix suggestion taken from the fix object's
message; the same object without the fix field yields is_autofixable
false and an absent fix suggestion; and on any decoded report the
output has one Violation per input object, in input order. -/
theorem parse_ruff_output_round_trip :
    (parse_ruff_output ruffOutputA).2 = Except.ok [violationA]
  ∧ (parse_ruff_output ruffOutputB).2 = Except.ok [violationB]
  ∧ ∀ (s : String) (xs : List Json) (vs : List Violation),
      jsonLoads s = some (Json.arr xs) → parseViolationList xs = some vs →
      (parse_ruff_output s).2 = Except.ok vs ∧ vs.length = xs.length := by
  refine ⟨rfl, rfl, ?_⟩
  intro s xs vs hj hv
  have hs : s ≠ "" := by
    intro h
    subst h
    rw [show jsonLoads "" = none from rfl] at hj
    exact Option.noConfusion hj
  refine ⟨?_, parseViolationList_length xs vs hv⟩
  simp only [parse_ruff_output, hj, hv]
  simp [hs]

/-- Witness for the general part of C6 at a concrete two-object
report, checking input order. -/
theorem parse_ruff_output_round_trip_witness :
    jsonLoads ruffOutputC = some (Json.arr [jsonObjA, jsonObjB])
  ∧ parseViolationList [jsonObjA, jsonObjB] = some [violationA, violationB]
  ∧ ((parse_ruff_output ruffOutputC).2 = Except.ok [violationA, violationB]
      ∧ ([violationA, violationB] : List Violation).length
          = ([jsonObjA, jsonObjB] : List Json).length) :=
  ⟨rfl, rfl,
   parse_ruff_output_round_trip.2.2 ruffOutputC [jsonObjA, jsonObjB]
     [violationA, violationB] rfl rfl⟩

/-- C7: on non-empty input the JSON decoder cannot decode, the function
logs the diagnostic and re-raises the decode error: the result is the
error, not a partial violation sequence. -/
theorem parse_ruff_output_decode_failure (s : String) (hs : s ≠ "")
    (hj : jsonLoads s = none) :
    (parse_ruff_output s).2 = Except.error RiffErr.jsonDecodeErr
  ∧ Event.logError "Could not parse Ruff output as JSON" ∈ (parse_ruff_output s).1 := by
  simp only [parse_ruff_output, hj]
  simp [hs]

/-- Witness for C7 at a concrete non-JSON input. -/
theorem parse_ruff_output_decode_failure_witness :
    ("not json" : String) ≠ "" ∧ jsonLoads "not json" = none
  ∧ ((parse_ruff_output "not json").2 = Except.error RiffErr.jsonDecodeErr
      ∧ Event.logError "Could not parse Ruff output as JSON"
          ∈ (parse_ruff_output "not json").1) :=
  ⟨by decide, rfl, parse_ruff_output_decode_failure "not json" (by decide) rfl⟩

/-- C8: empty (Python falsy, hence also absent) input yields the empty
violation sequence and raises no error. -/
theorem parse_ruff_output_empty_input :
    (parse_ruff_output "").2 = Except.ok [] := rfl

/-- Helper: skipping JSON whitespace in an all-whitespace character
list leaves either nothing or a vertical-tab or form-feed first
character. -/
theorem skipWs_all_pyws {cs : List Char} (h : ∀ c ∈ cs, isPyWs c = true) :
    skipWs cs = [] ∨ ∃ c cs2, skipWs cs = c :: cs2 ∧ (c = '\x0b' ∨ c = '\x0c') := by
  induction cs with
  | nil => exact Or.inl rfl
  | cons c cs ih =>
    have hc : isPyWs c = true := h c (List.mem_cons_self c cs)
    by_cases hj : isJsonWs c = true
    · simp only [skipWs, if_pos hj]
      exact ih fun d hd => h d (List.mem_cons_of_mem c hd)
    · simp only [skipWs, if_neg hj]
      refine Or.inr ⟨c, cs, rfl, ?_⟩
      simp only [isPyWs, Bool.or_eq_true, decide_eq_true_eq] at hc
      simp only [isJsonWs, Bool.or_eq_true, decide_eq_true_eq, not_or] at hj
      tauto

/-- Helper: the JSON value decoder fails on all-whitespace input at any
fuel, because no value starts there. -/
theorem parseValue_all_pyws (fuel : Nat) {cs : List Char}
    (h : ∀ c ∈ cs, isPyWs c = true) : parseValue fuel cs = none := by
  cases fuel with
  | zero => rfl
  | succ f =>
    rcases skipWs_all_pyws h with h0 | ⟨c, cs2, heq, hc⟩
    · simp [parseValue, h0]
    · rcases hc with rfl | rfl <;> simp [parseValue, heq]

/-- Helper: the modelled JSON decoder fails on whitespace-only
input. -/
theorem jsonLoads_all_pyws {s : String} (h : ∀ c ∈ s.data, isPyWs c = true) :
    jsonLoads s = none := by
  unfold jsonLoads
  rw [parseValue_all_pyws _ h]

/-- C10: a non-empty input consisting only of whitespace fails the
emptiness test, is passed to the JSON decoder and raises the decode
error; it is not treated as an empty violation sequence — only the
strictly empty string is. -/
theorem parse_ruff_output_whitespace_only (s : String) (hne : s ≠ "")
    (h : ∀ c ∈ s.data, isPyWs c = true) :
    (parse_ruff_output s).2 = Except.error RiffErr.jsonDecodeErr
  ∧ (parse_ruff_output s).2 ≠ Except.ok [] := by
  have hj := jsonLoads_all_pyws h
  have h1 : (parse_ruff_output s).2 = Except.error RiffErr.jsonDecodeErr := by
    simp only [parse_ruff_output, hj]
    simp [hne]
  refine ⟨h1, ?_⟩
  rw [h1]
  exact fun hcon => Except.noConfusion hcon

/-- Witness for C10 at the single-space input. -/
theorem parse_ruff_output_whitespace_only_witness :
    (" " : String) ≠ "" ∧ (∀ c ∈ (" " : String).data, isPyWs c = true)
  ∧ ((parse_ruff_output " ").2 = Except.error RiffErr.jsonDecodeErr
      ∧ (parse_ruff_output " ").2 ≠ Except.ok []) :=
  ⟨by decide, by decide,
   parse_ruff_output_whitespace_only " " (by decide) (by decide)⟩

/-- A sample world without a repository in the directory ancestry. -/
def worldEnvA : WorldEnv :=
  { repoSearch := none, cwd := "/work", resolve := id }

/-- A sample world with a discovered repository. -/
def worldEnvB : WorldEnv :=
  { repoSearch := some ["", "repo", ".git"], cwd := "/work", resolve := id }

/-- C9: when no repository is found in the directory ancestry,
`validate_repo_path` logs an error naming the searched directory and
terminates the invoking command with exit status 1 with the raising
context suppressed (no stack trace); on success it returns the resolved
parent directory of the repository metadata directory. -/
theorem validate_repo_path_spec (env : WorldEnv) :
    (env.repoSearch = none →
        (validate_repo_path env).1
          = [Event.logError ("Cannot detect repository in " ++ env.cwd)]
      ∧ (validate_repo_path env).2 = Except.error (RiffErr.exitErr 1 true))
  ∧ ∀ gd, env.repoSearch = some gd →
      (validate_repo_path env).2 = Except.ok (env.resolve gd.dropLast) := by
  constructor
  · intro h
    simp [validate_repo_path, h]
  · intro gd h
    simp [validate_repo_path, h]

/-- Witness for C9 at a world without a repository and a world with
one. -/
theorem validate_repo_path_spec_witness :
    worldEnvA.repoSearch = none
  ∧ ((validate_repo_path worldEnvA).1
        = [Event.logError ("Cannot detect repository in " ++ worldEnvA.cwd)]
      ∧ (validate_repo_path worldEnvA).2 = Except.error (RiffErr.exitErr 1 true))
  ∧ worldEnvB.repoSearch = some ["", "repo", ".git"]
  ∧ (validate_repo_path worldEnvB).2
      = Except.ok (worldEnvB.resolve (["", "repo", ".git"] : List String).dropLast) :=
  ⟨rfl, (validate_repo_path_spec worldEnvA).1 rfl, rfl,
   (validate_repo_path_spec worldEnvB).2 ["", "repo", ".git"] rfl⟩
